import Mathlib

/-!
Verification of the Eventim stats retrieval job (`EventimStatsJob.py`).

We shallowly embed the script's control flow and data transformations:
JSON documents become an inductive `Json` type, the pandas flattening
pipeline becomes pure list functions, the network becomes an oracle
describing the outcome of each endpoint call, and side effects (HTTP
requests, log lines, directory creation, file writes) become an explicit
event trace produced by the embedded `main`.
-/

namespace EventimStatsJob

/-- A JSON value, as produced by `response.json()`. -/
inductive Json where
  | null
  | bool (b : Bool)
  | num (n : Int)
  | str (s : String)
  | arr (elems : List Json)
  | obj (fields : List (String × Json))

/-- One row of a pandas DataFrame: ordered column labels paired with cell
values.  pandas permits duplicate column labels, which a list of pairs
represents directly. -/
abbrev Row := List (String × Json)

/-- Dot-joined column path used by `pd.json_normalize` for nested fields. -/
def joinPath (pre k : String) : String :=
  if pre = "" then k else pre ++ "." ++ k

mutual

/-- The columns `pd.json_normalize` derives from one JSON value sitting at
a given dot-joined path: an object is descended into; every other value
(scalars and lists alike, matching `json_normalize`'s default behaviour)
becomes a single cell under its path. -/
def flattenVal (path : String) : Json → List (String × Json)
  | Json.obj fs => flattenObj path fs
  | v => [(path, v)]

/-- The columns `pd.json_normalize` derives from an object's field list
under a path preamble, in field order. -/
def flattenObj (pre : String) : List (String × Json) → List (String × Json)
  | [] => []
  | (k, v) :: rest => flattenVal (joinPath pre k) v ++ flattenObj pre rest

end

/-- `pd.json_normalize` on a whole document: a dict yields one row, a list
of dicts yields one row per dict, anything else raises (`none`). -/
def normalizeRows : Json → Option (List Row)
  | Json.obj fs => some [flattenObj "" fs]
  | Json.arr xs => xs.mapM fun x =>
      match x with
      | Json.obj fs => some (flattenObj "" fs)
      | _ => none
  | _ => none

/-- Python's `col.split('.')[-1]`: the segment after the last `'.'` (the
whole string when it has no `'.'`, empty when it ends in one). -/
def lastSeg (s : String) : String :=
  String.mk (s.data.foldl (fun acc c => if c = '.' then [] else acc ++ [c]) [])

/-- `df.columns = [col.split('.')[-1] for col in df.columns]`: every column
label is replaced by its last path segment.  Duplicate resulting labels are
kept; pandas does not merge or overwrite columns on rename. -/
def renameRow (r : Row) : Row :=
  r.map (fun p => (lastSeg p.1, p.2))

/-- `df[name] = v`: overwrite the column if the label exists, else append a
new column at the end. -/
def setCol (r : Row) (name : String) (v : Json) : Row :=
  if r.any (fun p => p.1 = name) then
    r.map (fun p => if p.1 = name then (p.1, v) else p)
  else
    r ++ [(name, v)]

/-- The pure data transformation inside `fetch_registration_detail`:
normalize, collapse column labels to last segments, stamp the capture
timestamp.  `none` models the exception `pd.json_normalize` raises on a
document that is neither a dict nor a list of dicts. -/
def detail_flatten_rows (js : Json) (ts : String) : Option (List Row) :=
  (normalizeRows js).map
    (List.map (fun r => setCol (renameRow r) "timestamp" (Json.str ts)))

/-! ### Transport (`create_session`): urllib3 `Retry` configuration -/

/-- The retry configuration handed to `urllib3.util.retry.Retry` in
`create_session`. -/
structure RetryConfig where
  total : Nat
  backoff_factor : Nat
  status_forcelist : List Nat

/-- `Retry(total=3, backoff_factor=1, status_forcelist=[429, 500, 502, 503, 504])`. -/
def create_session_retry : RetryConfig :=
  { total := 3, backoff_factor := 1, status_forcelist := [429, 500, 502, 503, 504] }

/-- `s ∈ status_forcelist`, decidably. -/
def forcelisted (s : Nat) : Bool :=
  create_session_retry.status_forcelist.contains s

/-- urllib3's `Retry.DEFAULT_ALLOWED_METHODS`: the idempotent methods whose
responses may be retried on a forcelisted status.  `Retry(...)` in
`create_session` leaves this at its default, so `POST` is absent. -/
def defaultAllowedMethods : List String :=
  ["DELETE", "GET", "HEAD", "OPTIONS", "PUT", "TRACE"]

/-- Outcome of one low-level connection attempt: a connection-level error,
or an HTTP response with the given status. -/
inductive Attempt where
  | connFail
  | resp (status : Nat)

/-- Whether urllib3 retries this attempt outcome for this method: connection
errors are always retried; a response is retried only when its status is
forcelisted and the method is in the allowed-methods set (`Retry.is_retry`). -/
def attemptRetried (method : String) : Attempt → Bool
  | Attempt.connFail => true
  | Attempt.resp s => forcelisted s && defaultAllowedMethods.contains method

/-- The status an attempt delivers when it is not retried.  (`connFail` is
always retried, so its branch is unreachable; it is mapped to `none`, the
failure outcome.) -/
def attemptStatus : Attempt → Option Nat
  | Attempt.connFail => none
  | Attempt.resp s => some s

/-- urllib3's retry loop (`HTTPConnectionPool.urlopen` with `Retry`): the
oracle gives the outcome of the i-th attempt; the second argument is the
`total` retry budget left.  Each retried failure decrements `total`; a
retryable failure with no budget left raises `MaxRetryError` (`none`); a
non-retried response is handed to the caller.  Returns the number of
attempts made and the final status (`some s`) or failure (`none`). -/
def urlopenLoop (method : String) (oracle : Nat → Attempt) :
    Nat → Nat → Nat × Option Nat
  | i, 0 =>
    if attemptRetried method (oracle i) then (i + 1, none)
    else (i + 1, attemptStatus (oracle i))
  | i, r + 1 =>
    if attemptRetried method (oracle i) then urlopenLoop method oracle (i + 1) r
    else (i + 1, attemptStatus (oracle i))

/-- A request through the session built by `create_session`: the retry loop
started with the configured budget `total = 3`. -/
def sessionRequest (method : String) (oracle : Nat → Attempt) : Nat × Option Nat :=
  urlopenLoop method oracle 0 create_session_retry.total

/-! ### Pipeline world, errors and events

The pipeline is modelled one level above the transport: each endpoint call
is summarised by its outcome after the session's retries. -/

/-- Outcome of one endpoint call, after the transport layer's retries:
either a `requests` exception (connection failure or retry budget
exhausted), or a response with an HTTP status and a body.  A body of `none`
models a response whose body is not valid JSON, so that `response.json()`
raises `requests.exceptions.JSONDecodeError`. -/
inductive NetResult where
  | exn (msg : String)
  | ok (status : Nat) (body : Option Json)

/-- Python exceptions that the script can raise, as relevant to control
flow: `EnvironmentError` from the config readers, `RequestException` (which,
in requests ≥ 2.27, includes `JSONDecodeError` from `response.json()`),
`KeyError` from `['access_token']` / `['uuid']`, and the `TypeError`-like
failures of iterating a non-list or normalizing a non-tabular document. -/
inductive PyErr where
  | envErr (msg : String)
  | requestExn (msg : String)
  | keyErr (key : String)
  | typeErr
  | normalizeErr

/-- Observable side effects of a run, in order: HTTP requests issued, log
lines emitted (with their structured payloads), directories created and
files written. -/
inductive Event where
  | tokenReq
  | listReq
  | detailReq (token : Json) (uuid : Json)
  | errTokenFail
  | errListFail
  | infoFetched (n : Nat)
  | warnFetchFail (uuid : Json)
  | warnNoData
  | mkdirs (dir : String)
  | writeXlsx (path : String) (table : List Row)
  | infoSaved (path : String)
  | errScriptFail (e : PyErr)

/-- The run's environment and the network's behaviour:
`env` is `os.environ.get`; the three `Net` fields give the post-retry
outcome of the token call, the listing call, and each per-identifier detail
call; `now` is the ISO-8601 rendering of the (UTC) clock during the run and
`nowStamp` its `%Y%m%dT%H%M%SZ` rendering used in the output filename. -/
structure World where
  env : String → Option String
  tokenNet : NetResult
  listNet : NetResult
  detailNet : Json → NetResult
  now : String
  nowStamp : String

/-- Python truthiness of `os.environ.get(...)`: `None` and `""` are falsy. -/
def truthy : Option String → Bool
  | none => false
  | some s => s ≠ ""

/-- The exact message of the credentials `EnvironmentError`. -/
def credsMsg : String :=
  "Missing EVENTIM_CLIENT_ID or EVENTIM_CLIENT_SECRET in environment variables"

/-- The exact message of the report-directory `EnvironmentError`. -/
def reportDirMsg : String :=
  "Missing REPORT_OUTPUT_DIR in environment variables"

/-- The form body assembled by `get_credentials`. -/
structure Credentials where
  client_id : String
  client_secret : String
  grant_type : String

/-- `get_credentials`: reads the two secrets; `if not client_id or not
client_secret` raises `EnvironmentError`; otherwise returns the grant body. -/
def get_credentials (env : String → Option String) : Except PyErr Credentials :=
  let client_id := env "EVENTIM_CLIENT_ID"
  let client_secret := env "EVENTIM_CLIENT_SECRET"
  if ¬ truthy client_id ∨ ¬ truthy client_secret then
    Except.error (PyErr.envErr credsMsg)
  else
    Except.ok
      { client_id := client_id.getD ""
        client_secret := client_secret.getD ""
        grant_type := "client_credentials" }

/-- `get_report_dir`: reads `REPORT_OUTPUT_DIR`, raising `EnvironmentError`
when unset or empty; otherwise runs `os.makedirs(report_dir, exist_ok=True)`
and returns the directory. -/
def get_report_dir (w : World) : List Event × Except PyErr String :=
  match w.env "REPORT_OUTPUT_DIR" with
  | none => ([], Except.error (PyErr.envErr reportDirMsg))
  | some d =>
    if d = "" then ([], Except.error (PyErr.envErr reportDirMsg))
    else ([Event.mkdirs d], Except.ok d)

/-- First value stored under `key` (Python `dict` lookup on parsed JSON). -/
def lookupKey (fields : List (String × Json)) (key : String) : Option Json :=
  match fields.find? (fun p => p.1 = key) with
  | some p => some p.2
  | none => none

/-- `fetch_access_token`: evaluates `get_credentials()` while building the
`session.post` call, so a missing secret raises before any request is
issued.  The request itself: transport/HTTP errors and invalid-JSON bodies
are `RequestException`s, logged via `logging.error` and re-raised; a JSON
body without an `access_token` key raises an uncaught `KeyError`; otherwise
the field's value is returned verbatim. -/
def fetch_access_token (w : World) : List Event × Except PyErr Json :=
  match get_credentials w.env with
  | Except.error e => ([], Except.error e)
  | Except.ok _ =>
    match w.tokenNet with
    | NetResult.exn msg =>
        ([Event.tokenReq, Event.errTokenFail], Except.error (PyErr.requestExn msg))
    | NetResult.ok status body =>
        if 400 ≤ status then
          ([Event.tokenReq, Event.errTokenFail],
           Except.error (PyErr.requestExn "HTTPError"))
        else
          match body with
          | none =>
              ([Event.tokenReq, Event.errTokenFail],
               Except.error (PyErr.requestExn "JSONDecodeError"))
          | some js =>
            match js with
            | Json.obj fields =>
              match lookupKey fields "access_token" with
              | some tok => ([Event.tokenReq], Except.ok tok)
              | none => ([Event.tokenReq], Except.error (PyErr.keyErr "access_token"))
            | _ => ([Event.tokenReq], Except.error PyErr.typeErr)

/-- `[reg['uuid'] for reg in response.json()]`: iterating a non-list raises;
an entry that is not an object, or lacks `uuid`, raises. -/
def extractUuids : Json → Except PyErr (List Json)
  | Json.arr xs =>
      xs.mapM fun x =>
        match x with
        | Json.obj fields =>
          match lookupKey fields "uuid" with
          | some u => Except.ok u
          | none => Except.error (PyErr.keyErr "uuid")
        | _ => Except.error PyErr.typeErr
  | _ => Except.error PyErr.typeErr

/-- `fetch_registration_uuids`: one GET on the registrations collection;
`RequestException`s (transport, HTTP status, invalid JSON) are logged via
`logging.error` and re-raised; comprehension failures propagate uncaught. -/
def fetch_registration_uuids (w : World) (token : Json) :
    List Event × Except PyErr (List Json) :=
  match token, w.listNet with
  | _, NetResult.exn msg =>
      ([Event.listReq, Event.errListFail], Except.error (PyErr.requestExn msg))
  | _, NetResult.ok status body =>
      if 400 ≤ status then
        ([Event.listReq, Event.errListFail],
         Except.error (PyErr.requestExn "HTTPError"))
      else
        match body with
        | none =>
            ([Event.listReq, Event.errListFail],
             Except.error (PyErr.requestExn "JSONDecodeError"))
        | some js =>
          match extractUuids js with
          | Except.ok us => ([Event.listReq], Except.ok us)
          | Except.error e => ([Event.listReq], Except.error e)

/-- `fetch_registration_detail`: one GET on the per-identifier endpoint.
`except RequestException` catches transport errors, `raise_for_status`
errors and (requests ≥ 2.27) invalid-JSON bodies: it logs a warning naming
the identifier and returns `None`.  A document that `pd.json_normalize`
cannot tabulate raises an exception the `except` clause does not catch. -/
def fetch_registration_detail (w : World) (token uuid : Json) :
    List Event × Except PyErr (Option (List Row)) :=
  match w.detailNet uuid with
  | NetResult.exn _ =>
      ([Event.detailReq token uuid, Event.warnFetchFail uuid], Except.ok none)
  | NetResult.ok status body =>
      if 400 ≤ status then
        ([Event.detailReq token uuid, Event.warnFetchFail uuid], Except.ok none)
      else
        match body with
        | none =>
            ([Event.detailReq token uuid, Event.warnFetchFail uuid], Except.ok none)
        | some js =>
          match detail_flatten_rows js w.now with
          | none => ([Event.detailReq token uuid], Except.error PyErr.normalizeErr)
          | some rows => ([Event.detailReq token uuid], Except.ok (some rows))

/-- The `for uuid in uuids` loop of `main`: collects the DataFrames of the
successful fetches in order, dropping `None`s; an uncaught exception stops
the loop and propagates. -/
def fetch_loop (w : World) (token : Json) :
    List Json → List Event × Except PyErr (List (List Row))
  | [] => ([], Except.ok [])
  | u :: rest =>
    match fetch_registration_detail w token u with
    | (evs, Except.error e) => (evs, Except.error e)
    | (evs, Except.ok none) =>
        let r := fetch_loop w token rest
        (evs ++ r.1, r.2)
    | (evs, Except.ok (some rows)) =>
        let r := fetch_loop w token rest
        (evs ++ r.1, r.2.map (fun tables => rows :: tables))

/-- The output path `os.path.join(report_dir, f"Eventim_Stats_SVW_{timestamp}.xlsx")`. -/
def outPath (dir ts : String) : String :=
  dir ++ "/" ++ "Eventim_Stats_SVW_" ++ ts ++ ".xlsx"

/-- The body of `main`'s `try` block: token, listing, per-identifier loop,
then either the empty-data warning or concat + directory + spreadsheet
write. -/
def main_try (w : World) : List Event × Except PyErr Unit :=
  match fetch_access_token w with
  | (evs₁, Except.error e) => (evs₁, Except.error e)
  | (evs₁, Except.ok token) =>
    match fetch_registration_uuids w token with
    | (evs₂, Except.error e) => (evs₁ ++ evs₂, Except.error e)
    | (evs₂, Except.ok uuids) =>
      let evs₃ := [Event.infoFetched uuids.length]
      match fetch_loop w token uuids with
      | (evs₄, Except.error e) => (evs₁ ++ evs₂ ++ evs₃ ++ evs₄, Except.error e)
      | (evs₄, Except.ok all_data) =>
        if all_data.isEmpty then
          (evs₁ ++ evs₂ ++ evs₃ ++ evs₄ ++ [Event.warnNoData], Except.ok ())
        else
          let final_table := all_data.flatten
          match get_report_dir w with
          | (evs₅, Except.error e) =>
              (evs₁ ++ evs₂ ++ evs₃ ++ evs₄ ++ evs₅, Except.error e)
          | (evs₅, Except.ok dir) =>
            let path := outPath dir w.nowStamp
            (evs₁ ++ evs₂ ++ evs₃ ++ evs₄ ++ evs₅ ++
               [Event.writeXlsx path final_table, Event.infoSaved path],
             Except.ok ())

/-- `main`: runs the `try` body; `except Exception` catches every raised
exception, logs `Script failed: ...` and returns normally, so `main` always
yields a plain event trace. -/
def main (w : World) : List Event :=
  match main_try w with
  | (evs, Except.ok ()) => evs
  | (evs, Except.error e) => evs ++ [Event.errScriptFail e]

/-! ### Derived observations used by the theorems -/

/-- Is this event an HTTP request on the per-identifier detail endpoint? -/
def isDetailReq : Event → Bool
  | Event.detailReq _ _ => true
  | _ => false

/-- The events emitted by one detail fetch. -/
def detailEvents (w : World) (token u : Json) : List Event :=
  (fetch_registration_detail w token u).1

/-- The DataFrame a detail fetch contributes: `none` when the identifier was
skipped (or the fetch raised). -/
def detailData (w : World) (token u : Json) : Option (List Row) :=
  match (fetch_registration_detail w token u).2 with
  | Except.ok r => r
  | Except.error _ => none

/-- The detail fetch outcome at the network level is a transport error or an
HTTP error status. -/
def netReqFail : NetResult → Prop
  | NetResult.exn _ => True
  | NetResult.ok s _ => 400 ≤ s

/-- Is this event the `Script failed` log line of `main`'s handler? -/
def isScriptFail : Event → Bool
  | Event.errScriptFail _ => true
  | _ => false

/-! ### Concrete worlds used to instantiate the theorems -/

/-- An environment carrying all three variables the script reads. -/
def envAll : String → Option String := fun k =>
  if k = "EVENTIM_CLIENT_ID" then some "client-id"
  else if k = "EVENTIM_CLIENT_SECRET" then some "client-secret"
  else if k = "REPORT_OUTPUT_DIR" then some "/reports" else none

/-- An environment with the credentials but no `REPORT_OUTPUT_DIR`. -/
def envNoDir : String → Option String := fun k =>
  if k = "EVENTIM_CLIENT_ID" then some "client-id"
  else if k = "EVENTIM_CLIENT_SECRET" then some "client-secret"
  else none

/-- A token-endpoint response carrying `access_token` = `"tok"`. -/
def tokenOkNet : NetResult :=
  NetResult.ok 200 (some (Json.obj [("access_token", Json.str "tok")]))

/-- A listing response with the single identifier `u-1`. -/
def listOneNet : NetResult :=
  NetResult.ok 200 (some (Json.arr [Json.obj [("uuid", Json.str "u-1")]]))

/-- A detail document in which the two distinct paths `a.x` and `b.x` share
the innermost name `x`. -/
def collisionDoc : Json :=
  Json.obj [("a", Json.obj [("x", Json.num 1)]),
            ("b", Json.obj [("x", Json.num 2)])]

/-- A run in which the detail fetch of `u-f` fails at the transport level
while `u-g` succeeds. -/
def wC1 : World :=
  { env := envAll, tokenNet := tokenOkNet,
    listNet := NetResult.ok 200 (some (Json.arr
      [Json.obj [("uuid", Json.str "u-f")], Json.obj [("uuid", Json.str "u-g")]])),
    detailNet := fun u =>
      match u with
      | Json.str "u-f" => NetResult.exn "503 beyond retry budget"
      | _ => NetResult.ok 200 (some (Json.obj [("v", Json.num 3)])),
    now := "NOW", nowStamp := "TS" }

/-- A run in which both detail fetches fail at the transport level. -/
def wC3 : World :=
  { env := envAll, tokenNet := tokenOkNet,
    listNet := NetResult.ok 200 (some (Json.arr
      [Json.obj [("uuid", Json.str "u-1")], Json.obj [("uuid", Json.str "u-2")]])),
    detailNet := fun _ => NetResult.exn "timeout",
    now := "NOW", nowStamp := "TS" }

/-- A run with healthy network but no `REPORT_OUTPUT_DIR` configured. -/
def w4 : World :=
  { env := envNoDir, tokenNet := tokenOkNet, listNet := listOneNet,
    detailNet := fun _ => NetResult.ok 200 (some (Json.obj [("k", Json.num 5)])),
    now := "NOW", nowStamp := "TS" }

/-- A run with healthy network and `REPORT_OUTPUT_DIR` configured. -/
def w4b : World :=
  { env := envAll, tokenNet := tokenOkNet, listNet := listOneNet,
    detailNet := fun _ => NetResult.ok 200 (some (Json.obj [("k", Json.num 5)])),
    now := "NOW", nowStamp := "TS" }

/-- A run whose environment lacks `EVENTIM_CLIENT_ID`. -/
def wC6 : World :=
  { env := fun k => if k = "EVENTIM_CLIENT_SECRET" then some "client-secret" else none,
    tokenNet := tokenOkNet, listNet := NetResult.exn "never reached",
    detailNet := fun _ => NetResult.exn "never reached",
    now := "NOW", nowStamp := "TS" }

/-- A run whose token endpoint answers with a well-formed token body. -/
def wTok : World :=
  { env := envAll, tokenNet := tokenOkNet, listNet := NetResult.exn "unused",
    detailNet := fun _ => NetResult.exn "unused", now := "NOW", nowStamp := "TS" }

/-- A run whose token endpoint answers 200 with a JSON body lacking
`access_token`. -/
def wTokBad : World :=
  { env := envAll,
    tokenNet := NetResult.ok 200 (some (Json.obj [("token_type", Json.str "Bearer")])),
    listNet := NetResult.exn "unused", detailNet := fun _ => NetResult.exn "unused",
    now := "NOW", nowStamp := "TS" }

/-- A run listing the identifier `a` twice and `b` once, all details
succeeding — exercising order and the absence of deduplication. -/
def wC8 : World :=
  { env := envAll, tokenNet := tokenOkNet,
    listNet := NetResult.ok 200 (some (Json.arr
      [Json.obj [("uuid", Json.str "a")], Json.obj [("uuid", Json.str "a")],
       Json.obj [("uuid", Json.str "b")]])),
    detailNet := fun _ => NetResult.ok 200 (some (Json.obj [("v", Json.num 1)])),
    now := "NOW", nowStamp := "TS" }

/-- A run whose token call fails at the transport level. -/
def wC9 : World :=
  { env := envAll, tokenNet := NetResult.exn "boom",
    listNet := NetResult.exn "boom", detailNet := fun _ => NetResult.exn "boom",
    now := "NOW", nowStamp := "TS" }

/-- A run in which `u-bad`'s detail response is 200 with a body that is not
valid JSON, while `u-good` succeeds. -/
def wc10 : World :=
  { env := envAll, tokenNet := tokenOkNet,
    listNet := NetResult.ok 200 (some (Json.arr
      [Json.obj [("uuid", Json.str "u-bad")], Json.obj [("uuid", Json.str "u-good")]])),
    detailNet := fun u =>
      match u with
      | Json.str "u-bad" => NetResult.ok 200 none
      | _ => NetResult.ok 200 (some (Json.obj [("v", Json.num 9)])),
    now := "NOW", nowStamp := "TS" }

/-- A run in which `u-bad`'s detail response is 200 with valid JSON that
`pd.json_normalize` cannot tabulate (a bare string), with identifiers before
and after it. -/
def wC10a : World :=
  { env := envAll, tokenNet := tokenOkNet,
    listNet := NetResult.ok 200 (some (Json.arr
      [Json.obj [("uuid", Json.str "u-ok")], Json.obj [("uuid", Json.str "u-bad")],
       Json.obj [("uuid", Json.str "u-rest")]])),
    detailNet := fun u =>
      match u with
      | Json.str "u-bad" => NetResult.ok 200 (some (Json.str "oops"))
      | _ => NetResult.ok 200 (some (Json.obj [("v", Json.num 2)])),
    now := "NOW", nowStamp := "TS" }

/-! ### Helper lemmas -/

/-- A successful `fetch_access_token` emitted exactly one token request. -/
theorem fetch_access_token_ok_shape (w : World) (tok : Json)
    (h : (fetch_access_token w).2 = Except.ok tok) :
    fetch_access_token w = ([Event.tokenReq], Except.ok tok) := by
  unfold fetch_access_token at h ⊢
  repeat' split at h
  all_goals simp_all

/-- A successful `fetch_registration_uuids` emitted exactly one listing
request. -/
theorem fetch_registration_uuids_ok_shape (w : World) (token : Json) (us : List Json)
    (h : (fetch_registration_uuids w token).2 = Except.ok us) :
    fetch_registration_uuids w token = ([Event.listReq], Except.ok us) := by
  unfold fetch_registration_uuids at h ⊢
  repeat' split at h
  all_goals simp_all

/-- A network-level failure of a detail fetch is caught: the fetch emits its
request and a warning naming the identifier, and returns `None`. -/
theorem fetch_detail_reqfail (w : World) (token u : Json)
    (h : netReqFail (w.detailNet u)) :
    fetch_registration_detail w token u =
      ([Event.detailReq token u, Event.warnFetchFail u], Except.ok none) := by
  unfold fetch_registration_detail
  unfold netReqFail at h
  rcases hn : w.detailNet u with msg | ⟨st, body⟩
  · rfl
  · rw [hn] at h
    simp only [if_pos h]

/-- The events of one detail fetch contain exactly one detail request. -/
theorem detailEvents_filter (w : World) (token u : Json) :
    (detailEvents w token u).filter isDetailReq = [Event.detailReq token u] := by
  unfold detailEvents fetch_registration_detail
  rcases w.detailNet u with msg | ⟨st, body⟩
  all_goals repeat' split
  all_goals simp [isDetailReq]

/-- A detail fetch never creates directories or writes files. -/
theorem detailEvents_mem (w : World) (token u : Json) (e : Event)
    (h : e ∈ detailEvents w token u) :
    e = Event.detailReq token u ∨ e = Event.warnFetchFail u := by
  unfold detailEvents fetch_registration_detail at h
  rcases w.detailNet u with msg | ⟨st, body⟩
  all_goals repeat' split at h
  all_goals simp_all

/-- When no fetch in the list raises, the loop emits each identifier's fetch
events in list order and collects the successful DataFrames in order. -/
theorem fetch_loop_ok (w : World) (token : Json) (us : List Json)
    (h : ∀ u ∈ us, ((fetch_registration_detail w token u).2).isOk = true) :
    fetch_loop w token us =
      (us.flatMap (detailEvents w token),
       Except.ok (us.filterMap (detailData w token))) := by
  induction us with
  | nil => simp [fetch_loop]
  | cons u rest ih =>
    have hu := h u (by simp)
    have hrest : ∀ v ∈ rest, ((fetch_registration_detail w token v).2).isOk = true :=
      fun v hv => h v (by simp [hv])
    rcases hfd : fetch_registration_detail w token u with ⟨evs, r⟩
    rcases r with e | ro
    · rw [hfd] at hu; simp [Except.isOk, Except.toBool] at hu
    · rcases ro with _ | rows <;>
        simp [fetch_loop, hfd, ih hrest, detailEvents, detailData, Except.map]

/-- When the fetch of `u` raises, the loop stops there: it emits the events
of the identifiers before `u` and of `u` itself, propagates the exception,
and never touches the identifiers after `u`. -/
theorem fetch_loop_raises (w : World) (token : Json) (pre post : List Json)
    (u : Json) (err : PyErr)
    (hpre : ∀ v ∈ pre, ((fetch_registration_detail w token v).2).isOk = true)
    (hu : (fetch_registration_detail w token u).2 = Except.error err) :
    fetch_loop w token (pre ++ u :: post) =
      (pre.flatMap (detailEvents w token) ++ (fetch_registration_detail w token u).1,
       Except.error err) := by
  induction pre with
  | nil =>
    rcases hfd : fetch_registration_detail w token u with ⟨evs, r⟩
    rw [hfd] at hu
    simp at hu
    subst hu
    simp [fetch_loop, hfd, detailEvents]
  | cons v rest ih =>
    have hv := hpre v (by simp)
    have hrest : ∀ x ∈ rest, ((fetch_registration_detail w token x).2).isOk = true :=
      fun x hx => hpre x (by simp [hx])
    rcases hfd : fetch_registration_detail w token v with ⟨evs, r⟩
    rcases r with e | ro
    · rw [hfd] at hv; simp [Except.isOk, Except.toBool] at hv
    · rcases ro with _ | rows <;>
        simp [fetch_loop, hfd, ih hrest, detailEvents, Except.map]

/-- `get_report_dir` on a set, non-empty variable. -/
theorem get_report_dir_some (w : World) (d : String)
    (hdir : w.env "REPORT_OUTPUT_DIR" = some d) (hd : d ≠ "") :
    get_report_dir w = ([Event.mkdirs d], Except.ok d) := by
  unfold get_report_dir
  rw [hdir]
  simp [hd]

/-- `get_report_dir` on an unset or empty variable. -/
theorem get_report_dir_missing (w : World)
    (h : truthy (w.env "REPORT_OUTPUT_DIR") = false) :
    get_report_dir w = ([], Except.error (PyErr.envErr reportDirMsg)) := by
  unfold get_report_dir
  rcases he : w.env "REPORT_OUTPUT_DIR" with _ | s
  · rfl
  · rw [he] at h
    simp [truthy] at h
    simp [h]

/-- Full trace of a run that authenticates, lists, loses no fetch to an
uncaught exception, ends with at least one DataFrame, and finds the report
directory configured. -/
theorem main_writes (w : World) (token : Json) (us : List Json) (d : String)
    (h1 : (fetch_access_token w).2 = Except.ok token)
    (h2 : (fetch_registration_uuids w token).2 = Except.ok us)
    (h3 : ∀ u ∈ us, ((fetch_registration_detail w token u).2).isOk = true)
    (h4 : us.filterMap (detailData w token) ≠ [])
    (hdir : w.env "REPORT_OUTPUT_DIR" = some d) (hd : d ≠ "") :
    main w =
      [Event.tokenReq, Event.listReq, Event.infoFetched us.length]
        ++ us.flatMap (detailEvents w token)
        ++ [Event.mkdirs d,
            Event.writeXlsx (outPath d w.nowStamp)
              ((us.filterMap (detailData w token)).flatten),
            Event.infoSaved (outPath d w.nowStamp)] := by
  unfold main main_try
  rw [fetch_access_token_ok_shape w token h1]
  dsimp only
  rw [fetch_registration_uuids_ok_shape w token us h2]
  dsimp only
  rw [fetch_loop_ok w token us h3]
  dsimp only
  rw [get_report_dir_some w d hdir hd]
  simp [h4]

/-- Full trace of a run that authenticates, lists, loses no fetch to an
uncaught exception, and ends with zero DataFrames. -/
theorem main_nodata (w : World) (token : Json) (us : List Json)
    (h1 : (fetch_access_token w).2 = Except.ok token)
    (h2 : (fetch_registration_uuids w token).2 = Except.ok us)
    (h3 : ∀ u ∈ us, ((fetch_registration_detail w token u).2).isOk = true)
    (h4 : us.filterMap (detailData w token) = []) :
    main w =
      [Event.tokenReq, Event.listReq, Event.infoFetched us.length]
        ++ us.flatMap (detailEvents w token) ++ [Event.warnNoData] := by
  unfold main main_try
  rw [fetch_access_token_ok_shape w token h1]
  dsimp only
  rw [fetch_registration_uuids_ok_shape w token us h2]
  dsimp only
  rw [fetch_loop_ok w token us h3]
  simp [h4]

/-- Full trace of a run that reaches the export step with data but without a
configured report directory. -/
theorem main_dirfail (w : World) (token : Json) (us : List Json)
    (h1 : (fetch_access_token w).2 = Except.ok token)
    (h2 : (fetch_registration_uuids w token).2 = Except.ok us)
    (h3 : ∀ u ∈ us, ((fetch_registration_detail w token u).2).isOk = true)
    (h4 : us.filterMap (detailData w token) ≠ [])
    (hmiss : truthy (w.env "REPORT_OUTPUT_DIR") = false) :
    main w =
      [Event.tokenReq, Event.listReq, Event.infoFetched us.length]
        ++ us.flatMap (detailEvents w token)
        ++ [Event.errScriptFail (PyErr.envErr reportDirMsg)] := by
  unfold main main_try
  rw [fetch_access_token_ok_shape w token h1]
  dsimp only
  rw [fetch_registration_uuids_ok_shape w token us h2]
  dsimp only
  rw [fetch_loop_ok w token us h3]
  dsimp only
  rw [get_report_dir_missing w hmiss]
  simp [h4]

/-- Full trace of a run in which the detail fetch of `u` raises an uncaught
exception after the identifiers of `pre` were processed. -/
theorem main_loop_raises (w : World) (token : Json) (pre post : List Json)
    (u : Json) (err : PyErr)
    (h1 : (fetch_access_token w).2 = Except.ok token)
    (h2 : (fetch_registration_uuids w token).2 = Except.ok (pre ++ u :: post))
    (hpre : ∀ v ∈ pre, ((fetch_registration_detail w token v).2).isOk = true)
    (hu : (fetch_registration_detail w token u).2 = Except.error err) :
    main w =
      [Event.tokenReq, Event.listReq, Event.infoFetched (pre ++ u :: post).length]
        ++ pre.flatMap (detailEvents w token)
        ++ (fetch_registration_detail w token u).1
        ++ [Event.errScriptFail err] := by
  unfold main main_try
  rw [fetch_access_token_ok_shape w token h1]
  dsimp only
  rw [fetch_registration_uuids_ok_shape w token (pre ++ u :: post) h2]
  dsimp only
  rw [fetch_loop_raises w token pre post u err hpre hu]
  simp

/-- The number of attempts the retry loop makes is at most the initial
index plus the retry budget plus one: with `total = 3`, at most 4 attempts. -/
theorem urlopen_attempts_le (method : String) (oracle : Nat → Attempt) :
    ∀ r i, (urlopenLoop method oracle i r).1 ≤ i + r + 1 := by
  intro r
  induction r with
  | zero =>
    intro i
    unfold urlopenLoop
    split <;> simp
  | succ r ih =>
    intro i
    unfold urlopenLoop
    split
    · exact le_trans (ih (i + 1)) (by omega)
    · simp

/-- Any member of the loop's event block is the request or the warning of
one of the looped identifiers. -/
theorem detail_flatMap_mem (w : World) (token : Json) (us : List Json) (e : Event)
    (h : e ∈ us.flatMap (detailEvents w token)) :
    (∃ u ∈ us, e = Event.detailReq token u) ∨ (∃ u ∈ us, e = Event.warnFetchFail u) := by
  rw [List.mem_flatMap] at h
  obtain ⟨u, hu, hm⟩ := h
  rcases detailEvents_mem w token u e hm with h | h
  · exact Or.inl ⟨u, hu, h⟩
  · exact Or.inr ⟨u, hu, h⟩

/-- Flat-mapping a singleton-producing function is mapping. -/
theorem flatMap_single {α β : Type} (l : List α) (f : α → β) :
    l.flatMap (fun x => [f x]) = l.map f := by
  induction l with
  | nil => rfl
  | cons a t ih => simp [List.flatMap_cons, ih]

/-! ### Claim theorems -/

/-- C2 (amended).  For every JSON object document none of whose collapsed
column names is `"timestamp"`, flattening collapses each nested field path
to its innermost (last) segment and appends the capture-timestamp field: the
resulting row lists, in order, one cell per leaf of the document under the
leaf's innermost name — duplicated innermost names are all retained, with
their distinct values, rather than one overwriting the other — followed by
the `"timestamp"` cell. -/
theorem flatten_collapses_to_leaf_names_and_stamps
    (fs : List (String × Json)) (ts : String)
    (h : ∀ p ∈ flattenObj "" fs, lastSeg p.1 ≠ "timestamp") :
    detail_flatten_rows (Json.obj fs) ts =
      some [(flattenObj "" fs).map (fun p => (lastSeg p.1, p.2))
              ++ [("timestamp", Json.str ts)]] := by
  have hany : (renameRow (flattenObj "" fs)).any (fun p => p.1 = "timestamp") = false := by
    rw [List.any_eq_false]
    intro x hx
    simp only [renameRow, List.mem_map] at hx
    obtain ⟨p, hp, rfl⟩ := hx
    simpa using h p hp
  unfold detail_flatten_rows normalizeRows
  simp only [Option.map_some', List.map_cons, List.map_nil]
  unfold setCol
  rw [hany]
  simp [renameRow]

/-- C2 witness: the spec's round-trip example `{"event": {"id": 7, "name":
{"en": "Show"}}}` flattens to the fields `id`, `en` and `timestamp`. -/
theorem flatten_collapses_to_leaf_names_and_stamps_witness :
    detail_flatten_rows
      (Json.obj [("event", Json.obj [("id", Json.num 7),
                   ("name", Json.obj [("en", Json.str "Show")])])]) "T"
      = some [[("id", Json.num 7), ("en", Json.str "Show"),
               ("timestamp", Json.str "T")]] := by
  rw [flatten_collapses_to_leaf_names_and_stamps _ "T" (by decide)]
  rfl

/-- C2 counterexample.  On `{"a": {"x": 1}, "b": {"x": 2}}` the flattened
row keeps BOTH colliding columns — two cells labelled `x` carrying the two
distinct values — so neither silently overwrites the other, and the row's
fields are the duplicate-preserving list `x, x, timestamp`, not the set of
leaf names plus `timestamp`. -/
theorem flatten_collision_keeps_both_columns_cex :
    detail_flatten_rows collisionDoc "T"
      = some [[("x", Json.num 1), ("x", Json.num 2), ("timestamp", Json.str "T")]] ∧
    (detail_flatten_rows collisionDoc "T").map (List.map (List.map Prod.fst))
      = some [["x", "x", "timestamp"]] := by
  exact ⟨rfl, rfl⟩

/-- C5 (amended).  The session's `Retry` is configured with `total = 3`,
`backoff_factor = 1` and forcelist `{429, 500, 502, 503, 504}`.  The budget
of 3 is the number of retries AFTER the initial attempt, so every request
makes at most 4 attempts (not 3).  Status-forcelist retries apply only to
urllib3's default allowed (idempotent) methods: a GET failing 500 twice
succeeds on its 3rd attempt, a GET failing four times in a row exhausts the
budget and surfaces as a failure, while a POST (the token call) gets a
forcelisted status back unretried after a single attempt; connection errors
are retried for every method, POST included. -/
theorem retry_policy_amended :
    create_session_retry.total = 3 ∧
    create_session_retry.backoff_factor = 1 ∧
    create_session_retry.status_forcelist = [429, 500, 502, 503, 504] ∧
    (∀ (method : String) (oracle : Nat → Attempt),
       (sessionRequest method oracle).1 ≤ 4) ∧
    (∀ oracle : Nat → Attempt, oracle 0 = Attempt.resp 500 →
       oracle 1 = Attempt.resp 500 → oracle 2 = Attempt.resp 200 →
       sessionRequest "GET" oracle = (3, some 200)) ∧
    (∀ oracle : Nat → Attempt, (∀ i, i < 4 → oracle i = Attempt.resp 500) →
       sessionRequest "GET" oracle = (4, none)) ∧
    (∀ (oracle : Nat → Attempt) (s : Nat), forcelisted s = true →
       oracle 0 = Attempt.resp s → sessionRequest "POST" oracle = (1, some s)) ∧
    (∀ oracle : Nat → Attempt, oracle 0 = Attempt.connFail →
       oracle 1 = Attempt.resp 200 → sessionRequest "POST" oracle = (2, some 200)) := by
  refine ⟨rfl, rfl, rfl,
    fun method oracle => urlopen_attempts_le method oracle 3 0, ?_, ?_, ?_, ?_⟩
  · intro oracle h0 h1 h2
    simp [sessionRequest, create_session_retry, urlopenLoop, h0, h1, h2,
          attemptRetried, attemptStatus, forcelisted, defaultAllowedMethods]
  · intro oracle h
    simp [sessionRequest, create_session_retry, urlopenLoop,
          h 0 (by omega), h 1 (by omega), h 2 (by omega), h 3 (by omega),
          attemptRetried, attemptStatus, forcelisted, defaultAllowedMethods]
  · intro oracle s _hs h0
    simp [sessionRequest, create_session_retry, urlopenLoop, h0,
          attemptRetried, attemptStatus, defaultAllowedMethods]
  · intro oracle h0 h1
    simp [sessionRequest, create_session_retry, urlopenLoop, h0, h1,
          attemptRetried, attemptStatus, forcelisted, defaultAllowedMethods]

/-- C5 witness: the amended retry policy evaluated on concrete attempt
sequences. -/
theorem retry_policy_amended_witness :
    sessionRequest "GET" (fun i => if i < 2 then Attempt.resp 500 else Attempt.resp 200)
      = (3, some 200) ∧
    sessionRequest "GET" (fun _ => Attempt.resp 500) = (4, none) ∧
    sessionRequest "POST" (fun _ => Attempt.resp 500) = (1, some 500) ∧
    sessionRequest "POST" (fun i => if i = 0 then Attempt.connFail else Attempt.resp 200)
      = (2, some 200) :=
  ⟨retry_policy_amended.2.2.2.2.1 _ rfl rfl rfl,
   retry_policy_amended.2.2.2.2.2.1 _ (fun _ _ => rfl),
   retry_policy_amended.2.2.2.2.2.2.1 _ 500 rfl rfl,
   retry_policy_amended.2.2.2.2.2.2.2 _ rfl rfl⟩

/-- C5 counterexample.  A GET failing with 500 exactly three times succeeds
on its 4th attempt: the transport makes 4 attempts in total, refuting "up to
3 attempts total"; and a POST answered with the forcelisted status 500 is
not retried at all (one attempt, the 500 handed back), refuting status
retries "for every outgoing request". -/
theorem retry_budget_four_attempts_cex :
    sessionRequest "GET" (fun i => if i < 3 then Attempt.resp 500 else Attempt.resp 200)
      = (4, some 200) ∧
    ¬ (sessionRequest "GET" (fun i => if i < 3 then Attempt.resp 500 else Attempt.resp 200)).1 ≤ 3 ∧
    sessionRequest "POST" (fun _ => Attempt.resp 500) = (1, some 500) :=
  ⟨rfl, by decide, rfl⟩

/-- C1.  If a single per-identifier detail fetch fails with a
transport/HTTP error (after transport retries), the Fetcher emits a warning
naming that identifier and contributes no DataFrame, the run does not abort
(no `Script failed` log), and the written ReportTable excludes that
identifier's rows while including the rows of every other successfully
fetched identifier. -/
theorem fetcher_isolates_per_item_failure
    (w : World) (token X : Json) (us : List Json) (d : String)
    (h1 : (fetch_access_token w).2 = Except.ok token)
    (h2 : (fetch_registration_uuids w token).2 = Except.ok us)
    (hX : X ∈ us)
    (hfail : netReqFail (w.detailNet X))
    (hok : ∀ u ∈ us, u ≠ X →
      ∃ rows, (fetch_registration_detail w token u).2 = Except.ok (some rows))
    (hother : ∃ u ∈ us, u ≠ X)
    (hdir : w.env "REPORT_OUTPUT_DIR" = some d) (hd : d ≠ "") :
    detailData w token X = none ∧
    (∀ u ∈ us, u ≠ X → detailData w token u ≠ none) ∧
    Event.warnFetchFail X ∈ main w ∧
    (∀ e, Event.errScriptFail e ∉ main w) ∧
    Event.writeXlsx (outPath d w.nowStamp)
        ((us.filterMap (detailData w token)).flatten) ∈ main w := by
  have hfX := fetch_detail_reqfail w token X hfail
  have hdX : detailData w token X = none := by
    unfold detailData
    rw [hfX]
  have h3 : ∀ u ∈ us, ((fetch_registration_detail w token u).2).isOk = true := by
    intro u hu
    by_cases hux : u = X
    · subst hux
      rw [hfX]
      rfl
    · obtain ⟨rows, hr⟩ := hok u hu hux
      rw [hr]
      rfl
  have h4 : us.filterMap (detailData w token) ≠ [] := by
    obtain ⟨u, hu, hux⟩ := hother
    obtain ⟨rows, hr⟩ := hok u hu hux
    have hmem : rows ∈ us.filterMap (detailData w token) := by
      rw [List.mem_filterMap]
      refine ⟨u, hu, ?_⟩
      unfold detailData
      rw [hr]
    exact List.ne_nil_of_mem hmem
  have hm := main_writes w token us d h1 h2 h3 h4 hdir hd
  refine ⟨hdX, ?_, ?_, ?_, ?_⟩
  · intro u hu hux
    obtain ⟨rows, hr⟩ := hok u hu hux
    unfold detailData
    rw [hr]
    simp
  · rw [hm]
    have hwX : Event.warnFetchFail X ∈ detailEvents w token X := by
      unfold detailEvents
      rw [hfX]
      simp
    simp only [List.mem_append, List.mem_flatMap]
    exact Or.inl (Or.inr ⟨X, hX, hwX⟩)
  · intro e
    rw [hm]
    simp only [List.mem_append]
    rintro ((h | h) | h)
    · simp at h
    · rcases detail_flatMap_mem w token us _ h with ⟨u, _, h⟩ | ⟨u, _, h⟩ <;> simp at h
    · simp at h
  · rw [hm]
    simp

/-- C1 witness: in `wC1` the fetch of `u-f` fails with a transport error,
`u-g` succeeds; the run warns about `u-f`, does not abort, and writes
`u-g`'s row only. -/
theorem fetcher_isolates_per_item_failure_witness :
    Event.warnFetchFail (Json.str "u-f") ∈ main wC1 ∧
    Event.writeXlsx "/reports/Eventim_Stats_SVW_TS.xlsx"
      [[("v", Json.num 3), ("timestamp", Json.str "NOW")]] ∈ main wC1 := by
  have h := fetcher_isolates_per_item_failure wC1 (Json.str "tok") (Json.str "u-f")
    [Json.str "u-f", Json.str "u-g"] "/reports" rfl rfl (by simp) trivial
    (by
      intro u hu hne
      rcases hu with _ | ⟨_, hu⟩
      · exact absurd rfl hne
      · rcases hu with _ | ⟨_, hu⟩
        · exact ⟨_, rfl⟩
        · cases hu)
    ⟨Json.str "u-g", by simp, by simp⟩ rfl (by simp)
  exact ⟨h.2.2.1, h.2.2.2.2⟩

/-- C3.  In a run where every detail fetch is caught as a failure (zero
records collected), the export step logs the no-data warning, creates no
directory, writes no file, and the run ends without error. -/
theorem empty_result_export_noop
    (w : World) (token : Json) (us : List Json)
    (h1 : (fetch_access_token w).2 = Except.ok token)
    (h2 : (fetch_registration_uuids w token).2 = Except.ok us)
    (h3 : ∀ u ∈ us, (fetch_registration_detail w token u).2 = Except.ok none) :
    main w = [Event.tokenReq, Event.listReq, Event.infoFetched us.length]
        ++ us.flatMap (detailEvents w token) ++ [Event.warnNoData] ∧
    Event.warnNoData ∈ main w ∧
    (∀ p T, Event.writeXlsx p T ∉ main w) ∧
    (∀ dir, Event.mkdirs dir ∉ main w) ∧
    (∀ e, Event.errScriptFail e ∉ main w) := by
  have h3' : ∀ u ∈ us, ((fetch_registration_detail w token u).2).isOk = true := by
    intro u hu
    rw [h3 u hu]
    rfl
  have h4 : us.filterMap (detailData w token) = [] := by
    rw [List.filterMap_eq_nil_iff]
    intro u hu
    unfold detailData
    rw [h3 u hu]
  have hm := main_nodata w token us h1 h2 h3' h4
  refine ⟨hm, ?_, ?_, ?_, ?_⟩
  · rw [hm]
    simp
  · intro p T
    rw [hm]
    simp only [List.mem_append]
    rintro ((h | h) | h)
    · simp at h
    · rcases detail_flatMap_mem w token us _ h with ⟨u, _, h⟩ | ⟨u, _, h⟩ <;> simp at h
    · simp at h
  · intro dir
    rw [hm]
    simp only [List.mem_append]
    rintro ((h | h) | h)
    · simp at h
    · rcases detail_flatMap_mem w token us _ h with ⟨u, _, h⟩ | ⟨u, _, h⟩ <;> simp at h
    · simp at h
  · intro e
    rw [hm]
    simp only [List.mem_append]
    rintro ((h | h) | h)
    · simp at h
    · rcases detail_flatMap_mem w token us _ h with ⟨u, _, h⟩ | ⟨u, _, h⟩ <;> simp at h
    · simp at h

/-- C3 witness: in `wC3` both detail fetches fail; the full trace ends in
the no-data warning and contains no write. -/
theorem empty_result_export_noop_witness :
    main wC3 = [Event.tokenReq, Event.listReq, Event.infoFetched 2,
      Event.detailReq (Json.str "tok") (Json.str "u-1"),
      Event.warnFetchFail (Json.str "u-1"),
      Event.detailReq (Json.str "tok") (Json.str "u-2"),
      Event.warnFetchFail (Json.str "u-2"), Event.warnNoData] ∧
    Event.warnNoData ∈ main wC3 := by
  have h := empty_result_export_noop wC3 (Json.str "tok")
    [Json.str "u-1", Json.str "u-2"] rfl rfl
    (by
      intro u hu
      rcases hu with _ | ⟨_, hu⟩
      · rfl
      · rcases hu with _ | ⟨_, hu⟩
        · rfl
        · cases hu)
  exact ⟨h.1, h.2.1⟩

/-- C4 counterexample.  In `w4` the variable `REPORT_OUTPUT_DIR` is absent,
yet the run does NOT fail at startup: it issues the token request, the
listing request and a detail request, and only then fails — at the export
step — with the configuration error (which `main` logs and swallows). -/
theorem report_dir_checked_after_network_cex :
    w4.env "REPORT_OUTPUT_DIR" = none ∧
    main w4 = [Event.tokenReq, Event.listReq, Event.infoFetched 1,
      Event.detailReq (Json.str "tok") (Json.str "u-1"),
      Event.errScriptFail (PyErr.envErr reportDirMsg)] ∧
    (main w4).head? = some Event.tokenReq :=
  ⟨rfl, rfl, rfl⟩

/-- C4 (amended).  `REPORT_OUTPUT_DIR` is only read at the export step:
when it is absent (and at least one record was fetched) the run proceeds
through all network activity, then fails at export with the configuration
error and writes no file; when it is present the directory is created
(`makedirs` with `exist_ok`) at export time if missing. -/
theorem report_dir_fatal_at_export
    (w w' : World) (token : Json) (us : List Json) (d : String)
    (h1 : (fetch_access_token w).2 = Except.ok token)
    (h2 : (fetch_registration_uuids w token).2 = Except.ok us)
    (h3 : ∀ u ∈ us, ((fetch_registration_detail w token u).2).isOk = true)
    (h4 : us.filterMap (detailData w token) ≠ [])
    (hmiss : truthy (w.env "REPORT_OUTPUT_DIR") = false)
    (hset : w'.env "REPORT_OUTPUT_DIR" = some d) (hd : d ≠ "") :
    main w = [Event.tokenReq, Event.listReq, Event.infoFetched us.length]
        ++ us.flatMap (detailEvents w token)
        ++ [Event.errScriptFail (PyErr.envErr reportDirMsg)] ∧
    (∀ p T, Event.writeXlsx p T ∉ main w) ∧
    get_report_dir w' = ([Event.mkdirs d], Except.ok d) := by
  have hm := main_dirfail w token us h1 h2 h3 h4 hmiss
  refine ⟨hm, ?_, get_report_dir_some w' d hset hd⟩
  intro p T
  rw [hm]
  simp only [List.mem_append]
  rintro ((h | h) | h)
  · simp at h
  · rcases detail_flatMap_mem w token us _ h with ⟨u, _, h⟩ | ⟨u, _, h⟩ <;> simp at h
  · simp at h

/-- C4 witness: the amended behaviour on the concrete runs `w4` (variable
absent: failure after the network phase) and `w4b` (variable present: the
directory is created and returned). -/
theorem report_dir_fatal_at_export_witness :
    main w4 = [Event.tokenReq, Event.listReq, Event.infoFetched 1,
      Event.detailReq (Json.str "tok") (Json.str "u-1"),
      Event.errScriptFail (PyErr.envErr reportDirMsg)] ∧
    get_report_dir w4b = ([Event.mkdirs "/reports"], Except.ok "/reports") := by
  have h := report_dir_fatal_at_export w4 w4b (Json.str "tok") [Json.str "u-1"]
    "/reports" rfl rfl
    (by
      intro u hu
      rcases hu with _ | ⟨_, hu⟩
      · rfl
      · cases hu)
    (List.cons_ne_nil _ _) rfl rfl (by simp)
  exact ⟨h.1, h.2.2⟩

/-- C6.  If `EVENTIM_CLIENT_ID` or `EVENTIM_CLIENT_SECRET` is unset (or
empty), `get_credentials` raises the configuration error whose message
names the two credential variables, and the run issues no network request
at all: the only event is the logged failure. -/
theorem missing_credentials_fail_before_network (w : World)
    (h : truthy (w.env "EVENTIM_CLIENT_ID") = false ∨
         truthy (w.env "EVENTIM_CLIENT_SECRET") = false) :
    get_credentials w.env = Except.error (PyErr.envErr credsMsg) ∧
    main w = [Event.errScriptFail (PyErr.envErr credsMsg)] ∧
    Event.tokenReq ∉ main w ∧ Event.listReq ∉ main w ∧
    ∀ t u, Event.detailReq t u ∉ main w := by
  have hg : get_credentials w.env = Except.error (PyErr.envErr credsMsg) := by
    rcases h with h | h <;> simp [get_credentials, h]
  have hf : fetch_access_token w = ([], Except.error (PyErr.envErr credsMsg)) := by
    unfold fetch_access_token
    rw [hg]
  have hm : main w = [Event.errScriptFail (PyErr.envErr credsMsg)] := by
    unfold main main_try
    rw [hf]
    rfl
  refine ⟨hg, hm, ?_, ?_, ?_⟩
  · simp [hm]
  · simp [hm]
  · intro t u
    simp [hm]

/-- C6 witness: `wC6` lacks `EVENTIM_CLIENT_ID`; the run's whole trace is
the single logged configuration failure. -/
theorem missing_credentials_fail_before_network_witness :
    get_credentials wC6.env = Except.error (PyErr.envErr credsMsg) ∧
    main wC6 = [Event.errScriptFail (PyErr.envErr credsMsg)] := by
  have h := missing_credentials_fail_before_network wC6 (Or.inl rfl)
  exact ⟨h.1, h.2.1⟩

/-- C7.  On a successful token-endpoint response the Authenticator issues
exactly one token request and returns the `access_token` value verbatim;
when the field is absent from the (JSON object) body it raises the
missing-field error (`KeyError`, realising the malformed-response failure)
after that single request. -/
theorem authenticator_token_extraction
    (w w' : World) (st st' : Nat) (fields fields' : List (String × Json))
    (tok : Json) (c c' : Credentials)
    (hc : get_credentials w.env = Except.ok c)
    (hnet : w.tokenNet = NetResult.ok st (some (Json.obj fields)))
    (hst : st < 400)
    (hfield : lookupKey fields "access_token" = some tok)
    (hc' : get_credentials w'.env = Except.ok c')
    (hnet' : w'.tokenNet = NetResult.ok st' (some (Json.obj fields')))
    (hst' : st' < 400)
    (hfield' : lookupKey fields' "access_token" = none) :
    fetch_access_token w = ([Event.tokenReq], Except.ok tok) ∧
    fetch_access_token w' = ([Event.tokenReq], Except.error (PyErr.keyErr "access_token")) := by
  constructor
  · simp [fetch_access_token, hc, hnet, hfield, show ¬ 400 ≤ st from by omega]
  · simp [fetch_access_token, hc', hnet', hfield', show ¬ 400 ≤ st' from by omega]

/-- C7 witness: on `wTok` the token `"tok"` is returned verbatim after one
request; on `wTokBad` (body without `access_token`) the fetch fails after
one request. -/
theorem authenticator_token_extraction_witness :
    fetch_access_token wTok = ([Event.tokenReq], Except.ok (Json.str "tok")) ∧
    fetch_access_token wTokBad
      = ([Event.tokenReq], Except.error (PyErr.keyErr "access_token")) :=
  authenticator_token_extraction wTok wTokBad 200 200
    [("access_token", Json.str "tok")] [("token_type", Json.str "Bearer")]
    (Json.str "tok")
    { client_id := "client-id", client_secret := "client-secret",
      grant_type := "client_credentials" }
    { client_id := "client-id", client_secret := "client-secret",
      grant_type := "client_credentials" }
    rfl rfl (by omega) rfl rfl rfl (by omega) rfl

/-- C8.  When no detail fetch raises an uncaught exception, the run issues
exactly one detail request per listed identifier, in list order, each
carrying the token; and any table it writes is the order-preserving
concatenation of the successfully fetched DataFrames — fetch order, no
deduplication. -/
theorem fetcher_invocation_and_report_order
    (w : World) (token : Json) (us : List Json)
    (h1 : (fetch_access_token w).2 = Except.ok token)
    (h2 : (fetch_registration_uuids w token).2 = Except.ok us)
    (h3 : ∀ u ∈ us, ((fetch_registration_detail w token u).2).isOk = true) :
    (main w).filter isDetailReq = us.map (fun u => Event.detailReq token u) ∧
    (∀ p T, Event.writeXlsx p T ∈ main w →
       T = (us.filterMap (detailData w token)).flatten) := by
  have hflat : (us.flatMap (detailEvents w token)).filter isDetailReq
      = us.map (fun u => Event.detailReq token u) := by
    rw [List.filter_flatMap]
    simp only [detailEvents_filter]
    exact flatMap_single us (fun u => Event.detailReq token u)
  by_cases hempty : us.filterMap (detailData w token) = []
  · have hm := main_nodata w token us h1 h2 h3 hempty
    constructor
    · rw [hm]
      simp [List.filter_append, hflat, isDetailReq]
    · intro p T hmem
      rw [hm] at hmem
      exfalso
      simp only [List.mem_append] at hmem
      rcases hmem with (h | h) | h
      · simp at h
      · rcases detail_flatMap_mem w token us _ h with ⟨u, _, h⟩ | ⟨u, _, h⟩ <;> simp at h
      · simp at h
  · cases htruthy : truthy (w.env "REPORT_OUTPUT_DIR") with
    | false =>
      have hm := main_dirfail w token us h1 h2 h3 hempty htruthy
      constructor
      · rw [hm]
        simp [List.filter_append, hflat, isDetailReq]
      · intro p T hmem
        rw [hm] at hmem
        exfalso
        simp only [List.mem_append] at hmem
        rcases hmem with (h | h) | h
        · simp at h
        · rcases detail_flatMap_mem w token us _ h with ⟨u, _, h⟩ | ⟨u, _, h⟩ <;> simp at h
        · simp at h
    | true =>
      rcases he : w.env "REPORT_OUTPUT_DIR" with _ | d
      · rw [he] at htruthy
        simp [truthy] at htruthy
      · have hd : d ≠ "" := by
          rw [he] at htruthy
          simpa [truthy] using htruthy
        have hm := main_writes w token us d h1 h2 h3 hempty he hd
        constructor
        · rw [hm]
          simp [List.filter_append, hflat, isDetailReq]
        · intro p T hmem
          rw [hm] at hmem
          simp only [List.mem_append] at hmem
          rcases hmem with (h | h) | h
          · simp at h
          · exfalso
            rcases detail_flatMap_mem w token us _ h with ⟨u, _, h⟩ | ⟨u, _, h⟩ <;> simp at h
          · simp at h
            exact h.2

/-- C8 witness: `wC8` lists `a`, `a`, `b`; the run issues exactly these
three detail requests in order (the duplicate is fetched twice — no
deduplication), each carrying the token. -/
theorem fetcher_invocation_and_report_order_witness :
    (main wC8).filter isDetailReq =
      [Event.detailReq (Json.str "tok") (Json.str "a"),
       Event.detailReq (Json.str "tok") (Json.str "a"),
       Event.detailReq (Json.str "tok") (Json.str "b")] := by
  have h := fetcher_invocation_and_report_order wC8 (Json.str "tok")
    [Json.str "a", Json.str "a", Json.str "b"] rfl rfl
    (by
      intro u hu
      rcases hu with _ | ⟨_, hu⟩
      · rfl
      · rcases hu with _ | ⟨_, hu⟩
        · rfl
        · rcases hu with _ | ⟨_, hu⟩
          · rfl
          · cases hu)
  exact h.1

/-- C9.  Whatever exception the body of `main` raises, the top-level
handler logs it (`Script failed`) and `main` returns normally with a plain
event trace — and a run whose body succeeds returns its trace unchanged, so
success and failure are indistinguishable except through the log. -/
theorem main_swallows_all_errors (w : World) (e : PyErr) (evs : List Event)
    (h : main_try w = (evs, Except.error e)) :
    main w = evs ++ [Event.errScriptFail e] ∧
    ∀ (w2 : World) (evs2 : List Event),
      main_try w2 = (evs2, Except.ok ()) → main w2 = evs2 := by
  constructor
  · unfold main
    rw [h]
  · intro w2 evs2 h2
    unfold main
    rw [h2]

/-- C9 witness: the fatal transport failure of `wC9`'s token call is logged
and the run returns normally. -/
theorem main_swallows_all_errors_witness :
    main wC9 = [Event.tokenReq, Event.errTokenFail]
      ++ [Event.errScriptFail (PyErr.requestExn "boom")] :=
  (main_swallows_all_errors wC9 (PyErr.requestExn "boom")
    [Event.tokenReq, Event.errTokenFail] rfl).1

/-- C10 counterexample.  In `wc10` the detail response for `u-bad` has an
HTTP-success status but a body that is not valid JSON; the resulting
`JSONDecodeError` IS a `RequestException` (requests ≥ 2.27), so the item is
skipped with a warning, the run continues and writes `u-good`'s row — it
does not abort. -/
theorem invalid_json_detail_skipped_cex :
    wc10.detailNet (Json.str "u-bad") = NetResult.ok 200 none ∧
    main wc10 = [Event.tokenReq, Event.listReq, Event.infoFetched 2,
      Event.detailReq (Json.str "tok") (Json.str "u-bad"),
      Event.warnFetchFail (Json.str "u-bad"),
      Event.detailReq (Json.str "tok") (Json.str "u-good"),
      Event.mkdirs "/reports",
      Event.writeXlsx "/reports/Eventim_Stats_SVW_TS.xlsx"
        [[("v", Json.num 9), ("timestamp", Json.str "NOW")]],
      Event.infoSaved "/reports/Eventim_Stats_SVW_TS.xlsx"] ∧
    (main wc10).filter isScriptFail = [] :=
  ⟨rfl, rfl, rfl⟩

/-- C10 (amended).  The Fetcher's isolation covers exactly
`RequestException`; a 200-response whose body is not valid JSON is caught
and skipped like a transport failure, because `response.json()` raises
requests' `JSONDecodeError`, a `RequestException`.  By contrast, a valid
JSON body that `pd.json_normalize` cannot tabulate raises an exception the
Fetcher does not catch: the loop stops there, no later identifier is
fetched, no file is written, and the run ends with the logged failure. -/
theorem uncaught_flatten_failure_aborts
    (w : World) (token u : Json) (pre post : List Json) (st : Nat) (js : Json)
    (h1 : (fetch_access_token w).2 = Except.ok token)
    (h2 : (fetch_registration_uuids w token).2 = Except.ok (pre ++ u :: post))
    (hpre : ∀ v ∈ pre, ((fetch_registration_detail w token v).2).isOk = true)
    (hnet : w.detailNet u = NetResult.ok st (some js))
    (hst : st < 400)
    (hjs : normalizeRows js = none) :
    (fetch_registration_detail w token u)
      = ([Event.detailReq token u], Except.error PyErr.normalizeErr) ∧
    main w = [Event.tokenReq, Event.listReq,
        Event.infoFetched (pre ++ u :: post).length]
        ++ pre.flatMap (detailEvents w token)
        ++ [Event.detailReq token u, Event.errScriptFail PyErr.normalizeErr] ∧
    (∀ p T, Event.writeXlsx p T ∉ main w) ∧
    (∀ v, v ∈ post → v ∉ pre → v ≠ u → ∀ tk, Event.detailReq tk v ∉ main w) ∧
    (∀ (w2 : World) (t v : Json) (st2 : Nat), w2.detailNet v = NetResult.ok st2 none →
       st2 < 400 →
       fetch_registration_detail w2 t v
         = ([Event.detailReq t v, Event.warnFetchFail v], Except.ok none)) := by
  have hfu : fetch_registration_detail w token u
      = ([Event.detailReq token u], Except.error PyErr.normalizeErr) := by
    unfold fetch_registration_detail
    rw [hnet]
    simp [show ¬ 400 ≤ st from by omega, detail_flatten_rows, hjs]
  have hm := main_loop_raises w token pre post u PyErr.normalizeErr h1 h2 hpre
    (by rw [hfu])
  rw [hfu] at hm
  have hm' : main w = [Event.tokenReq, Event.listReq,
      Event.infoFetched (pre ++ u :: post).length]
      ++ pre.flatMap (detailEvents w token)
      ++ [Event.detailReq token u, Event.errScriptFail PyErr.normalizeErr] := by
    rw [hm]
    simp
  refine ⟨hfu, hm', ?_, ?_, ?_⟩
  · intro p T
    rw [hm']
    simp only [List.mem_append]
    rintro ((h | h) | h)
    · simp at h
    · rcases detail_flatMap_mem w token pre _ h with ⟨v, _, h⟩ | ⟨v, _, h⟩ <;> simp at h
    · simp at h
  · intro v _hvpost hvpre hvu tk
    rw [hm']
    simp only [List.mem_append]
    rintro ((h | h) | h)
    · simp at h
    · rcases detail_flatMap_mem w token pre _ h with ⟨x, hx, h⟩ | ⟨x, hx, h⟩
      · injection h with ht hv
        exact hvpre (hv ▸ hx)
      · simp at h
    · simp at h
      exact hvu h.2
  · intro w2 t v st2 hnet2 hst2
    unfold fetch_registration_detail
    rw [hnet2]
    simp [show ¬ 400 ≤ st2 from by omega]

/-- C10 witness: in `wC10a` the document of `u-bad` is the JSON string
`"oops"`, which `pd.json_normalize` cannot tabulate; the run aborts there,
never fetching `u-rest`. -/
theorem uncaught_flatten_failure_aborts_witness :
    main wC10a = [Event.tokenReq, Event.listReq, Event.infoFetched 3,
      Event.detailReq (Json.str "tok") (Json.str "u-ok"),
      Event.detailReq (Json.str "tok") (Json.str "u-bad"),
      Event.errScriptFail PyErr.normalizeErr] := by
  have h := uncaught_flatten_failure_aborts wC10a (Json.str "tok")
    (Json.str "u-bad") [Json.str "u-ok"] [Json.str "u-rest"] 200 (Json.str "oops")
    rfl rfl
    (by
      intro v hv
      rcases hv with _ | ⟨_, hv⟩
      · rfl
      · cases hv)
    rfl (by omega) rfl
  exact h.2.1

end EventimStatsJob
